import Mathlib

/-!
Verification of the validated LLM-invocation pipeline of pandaIA.

The development shallowly embeds the three source files:
* `pandasai/ee/agents/judge_agent/pipeline/llm_call.py` (`LLMCall.execute`),
* `pandasai/llm/azure_openai.py` (`AzureOpenAI.__init__`),
* `pandasai/callbacks/base.py` (`BaseCallBack.on_code`, `StdoutCallBack.on_code`),
and proves the testable properties of the specification about them.
-/

namespace PandaIA

/-- The Python containment test `needle in haystack` on lists of characters: does `pat` occur as a
prefix of `l`? -/
def beginsWith : List Char → List Char → Bool
  | [], _ => true
  | _ :: _, [] => false
  | a :: as, b :: bs => a == b && beginsWith as bs

/-- Does `pat` occur as a contiguous sublist of `l` (at any position)? -/
def occursIn (pat : List Char) : List Char → Bool
  | [] => beginsWith pat []
  | b :: bs => beginsWith pat (b :: bs) || occursIn pat bs

/-- The Python substring test `needle in hay` on strings. -/
def strContains (hay needle : String) : Bool :=
  occursIn needle.data hay.data

/-- The outcome of one backend invocation
(`pipeline_context.config.llm.call(...)`): either the raw response text, or a
transport-level failure raised by the router/backend. -/
inductive LLMResult where
  | response (text : String)
  | transportFailure (msg : String)
deriving Repr, DecidableEq

/-- Modelled from the spec: `LogicUnitOutput` (its module is not under `src/`)
is `{success, message, payload:{contentType, value}}` together with the logical
result of the step; the constructor call site in `LLMCall.execute` passes
`(result, True, "Code Generated Successfully",
{"content_type": "string", "value": response})`. -/
structure LogicUnitOutput where
  output : Bool
  success : Bool
  message : String
  content_type : String
  value : String
deriving Repr, DecidableEq

/-- How one `execute` run ends: a returned `LogicUnitOutput`, the
`InvalidOutputValueMismatch` raised after the final allowed attempt (carrying
its message), or a transport failure propagated from the backend call. -/
inductive ExecOutcome where
  | success (out : LogicUnitOutput)
  | validationError (msg : String)
  | transport (msg : String)
deriving Repr, DecidableEq

/-- `true` exactly when the run ended in a raised error (validation exhaustion
or transport failure) rather than a returned `LogicUnitOutput`. -/
def ExecOutcome.isFailure : ExecOutcome → Bool
  | .success _ => false
  | _ => true

/-- The observable result of one `LLMCall.execute` run: its outcome, the number
of backend calls made, the messages sent to the logger collaborator in order,
and the log of the pipeline context (`PipelineContext.add` appends, modelled from
the spec: the context module is not under `src/`; the spec says `add` is
append-only with insertion order preserved). -/
structure ExecResult where
  outcome : ExecOutcome
  calls : Nat
  loggerTrace : List String
  ctxLog : List (String × String)
deriving Repr, DecidableEq

/-- The exact message `LLMCall.execute` passes to `logger.log` for a response:
the f-string `f"""LLM response:\n                    {response}\n                    """`. -/
def logMessage (response : String) : String :=
  "LLM response:\n                    " ++ response ++ "\n                    "

/-- The `LogicUnitOutput` built on the success path of `LLMCall.execute`. -/
def mkLogicUnitOutput (result : Bool) (response : String) : LogicUnitOutput :=
  { output := result
    success := true
    message := "Code Generated Successfully"
    content_type := "string"
    value := response }

/-- The retry loop of `LLMCall.execute`.  `backend i` is what the `i`-th call
to `pipeline_context.config.llm.call` produces; `remaining` is
`max_retries - retry_count` (the loop runs while `retry_count <= max_retries`
and the final-attempt test `retry_count == max_retries` is `remaining == 0`);
`calls` counts backend calls already made, `trace` the logger messages so far,
`ctxLog` the context log so far.  Each iteration calls the backend, logs the
response, then validates: `if "<Yes>" in response` sets the result `True`,
`elif "<No>" in response` sets it `False`, `else` raises
`InvalidOutputValueMismatch("Invalid response of LLM Call")`, which is
re-raised on the final attempt and otherwise retried. -/
def executeLoop (backend : Nat → LLMResult) :
    Nat → Nat → List String → List (String × String) → ExecResult
  | remaining, calls, trace, ctxLog =>
    match backend calls with
    | .transportFailure e =>
        { outcome := .transport e, calls := calls + 1
          loggerTrace := trace, ctxLog := ctxLog }
    | .response response =>
        let trace' := trace ++ [logMessage response]
        if strContains response "<Yes>" then
          { outcome := .success (mkLogicUnitOutput true response)
            calls := calls + 1, loggerTrace := trace'
            ctxLog := ctxLog ++ [("llm_call", response)] }
        else if strContains response "<No>" then
          { outcome := .success (mkLogicUnitOutput false response)
            calls := calls + 1, loggerTrace := trace'
            ctxLog := ctxLog ++ [("llm_call", response)] }
        else
          match remaining with
          | 0 =>
              { outcome := .validationError "Invalid response of LLM Call"
                calls := calls + 1, loggerTrace := trace', ctxLog := ctxLog }
          | remaining' + 1 =>
              executeLoop backend remaining' (calls + 1) trace' ctxLog

/-- `LLMCall.execute`: starts the loop at `retry_count = 0` with
`max_retries` retries remaining, no calls made, an empty logger trace, and the
context log the caller's context already holds. -/
def execute (backend : Nat → LLMResult) (max_retries : Nat)
    (ctxLog : List (String × String)) : ExecResult :=
  executeLoop backend max_retries 0 [] ctxLog

/-- Shorthand: `backend` produces, as its `i`-th call, a response text that
contains neither verdict marker (the only malformed case the source retries). -/
def neitherMarkerAt (backend : Nat → LLMResult) (i : Nat) : Prop :=
  ∃ g, backend i = .response g ∧
    strContains g "<Yes>" = false ∧ strContains g "<No>" = false

/-- Python string interpolation of an optional value: `None` prints as
`"None"`. -/
def optionStr : Option String → String
  | none => "None"
  | some s => s

/-- One entry of the `model_list` handed to the litellm `Router` by
`AzureOpenAI.__init__`: model name, litellm params and throughput budgets,
with the literal values of the source. -/
structure ModelDeployment where
  model_name : String
  model : String
  api_key : Option String
  api_version : Option String
  api_base : Option String
  tpm : Nat
  rpm : Nat
deriving Repr, DecidableEq

/-- The configuration errors `AzureOpenAI.__init__` can raise (the kinds of `ConfigurationError` in the spec): `APIKeyNotFoundError` for a missing key, endpoint
base or API version, `MissingModelError` for a missing deployment name. -/
inductive AzureError where
  | apiKeyNotFound (msg : String)
  | missingModel (msg advice : String)
deriving Repr, DecidableEq

/-- The state a successfully constructed `AzureOpenAI` holds (the fields the
shown source assigns). -/
structure AzureOpenAI where
  model_list : List ModelDeployment
  is_chat_model : Bool
  engine : String
deriving Repr, DecidableEq

/-- `AzureOpenAI.__init__`.  `BaseOpenAI` is not under `src/`; modelled from
the spec: `self.api_token` / `self.api_base` / `self.api_version` hold the
resolved credentials (named parameter or environment variable), passed here
directly as options.  The rest follows the source: the `model_list` is built
first, then the four checks run in order — API key, endpoint base, API
version, deployment name — each raising before the `Router` is built, and no
completion call is made anywhere in the constructor (construction is a pure
check-and-assemble step). -/
def azureOpenAI_init (api_token api_base api_version deployment_name : Option String)
    (is_chat_model : Bool) : Except AzureError AzureOpenAI :=
  let model_list : List ModelDeployment :=
    [{ model_name := "gpt-3.5-turbo"
       model := "azure/" ++ optionStr deployment_name
       api_key := api_token
       api_version := api_version
       api_base := api_base
       tpm := 240000
       rpm := 1800 }]
  if api_token.isNone then
    .error (.apiKeyNotFound
      ("Azure OpenAI key is required. Please add an environment variable " ++
       "`OPENAI_API_KEY` or pass `api_token` as a named parameter"))
  else if api_base.isNone then
    .error (.apiKeyNotFound
      ("Azure OpenAI base is required. Please add an environment variable " ++
       "`OPENAI_API_BASE` or pass `api_base` as a named parameter"))
  else if api_version.isNone then
    .error (.apiKeyNotFound
      ("Azure OpenAI version is required. Please add an environment variable " ++
       "`OPENAI_API_VERSION` or pass `api_version` as a named parameter"))
  else
    match deployment_name with
    | none => .error (.missingModel "No deployment name provided."
        "Please include deployment name from Azure dashboard.")
    | some dn =>
        .ok { model_list := model_list, is_chat_model := is_chat_model, engine := dn }

/-- The raisable error of the callback module: `MethodNotImplementedError`. -/
inductive CallBackError where
  | methodNotImplemented (msg : String)
deriving Repr, DecidableEq

/-- The two callback classes of `pandasai/callbacks/base.py`: the abstract
`BaseCallBack` (whose `on_code` body is the unimplemented-capability raise) and
`StdoutCallBack` (which overrides it). -/
inductive CallBack where
  | base
  | stdout
deriving Repr, DecidableEq

/-- `on_code`, dispatched on the callback class: `BaseCallBack.on_code` raises
`MethodNotImplementedError("Must have implemented this.")`;
`StdoutCallBack.on_code` prints the response to stdout (modelled as the list
of lines written) and raises nothing. -/
def on_code : CallBack → String → Except CallBackError (List String)
  | .base, _ => .error (.methodNotImplemented "Must have implemented this.")
  | .stdout, response => .ok [response]


/-- One loop iteration whose response contains the affirmative marker returns
at once with verdict `true` (the `if` branch wins, whatever `<No>` does). -/
lemma executeLoop_yes_step (backend : Nat → LLMResult)
    (remaining calls : Nat) (trace : List String) (ctxLog : List (String × String))
    (g : String) (hg : backend calls = .response g)
    (hy : strContains g "<Yes>" = true) :
    executeLoop backend remaining calls trace ctxLog =
      { outcome := .success (mkLogicUnitOutput true g), calls := calls + 1,
        loggerTrace := trace ++ [logMessage g],
        ctxLog := ctxLog ++ [("llm_call", g)] } := by
  conv_lhs => rw [executeLoop.eq_def]
  simp [hg, hy]

/-- One loop iteration whose response lacks `<Yes>` but contains `<No>` returns
at once with verdict `false`. -/
lemma executeLoop_no_step (backend : Nat → LLMResult)
    (remaining calls : Nat) (trace : List String) (ctxLog : List (String × String))
    (g : String) (hg : backend calls = .response g)
    (hy : strContains g "<Yes>" = false) (hn : strContains g "<No>" = true) :
    executeLoop backend remaining calls trace ctxLog =
      { outcome := .success (mkLogicUnitOutput false g), calls := calls + 1,
        loggerTrace := trace ++ [logMessage g],
        ctxLog := ctxLog ++ [("llm_call", g)] } := by
  conv_lhs => rw [executeLoop.eq_def]
  simp [hg, hy, hn]

/-- One loop iteration whose backend call raises a transport failure propagates
it at once: the call is counted, nothing is logged, nothing is appended. -/
lemma executeLoop_transport_step (backend : Nat → LLMResult)
    (remaining calls : Nat) (trace : List String) (ctxLog : List (String × String))
    (e : String) (hg : backend calls = .transportFailure e) :
    executeLoop backend remaining calls trace ctxLog =
      { outcome := .transport e, calls := calls + 1,
        loggerTrace := trace, ctxLog := ctxLog } := by
  conv_lhs => rw [executeLoop.eq_def]
  simp [hg]

/-- A marker-free response on a non-final attempt is retried: the loop moves on
to the next attempt with the response logged and the bound decremented. -/
lemma executeLoop_retry_step (backend : Nat → LLMResult)
    (r' calls : Nat) (trace : List String) (ctxLog : List (String × String))
    (g : String) (hg : backend calls = .response g)
    (hy : strContains g "<Yes>" = false) (hn : strContains g "<No>" = false) :
    executeLoop backend (r' + 1) calls trace ctxLog =
      executeLoop backend r' (calls + 1) (trace ++ [logMessage g]) ctxLog := by
  conv_lhs => rw [executeLoop.eq_def]
  simp [hg, hy, hn]

/-- A marker-free response on the final allowed attempt re-raises
`InvalidOutputValueMismatch("Invalid response of LLM Call")`. -/
lemma executeLoop_last_step (backend : Nat → LLMResult)
    (calls : Nat) (trace : List String) (ctxLog : List (String × String))
    (g : String) (hg : backend calls = .response g)
    (hy : strContains g "<Yes>" = false) (hn : strContains g "<No>" = false) :
    executeLoop backend 0 calls trace ctxLog =
      { outcome := .validationError "Invalid response of LLM Call",
        calls := calls + 1, loggerTrace := trace ++ [logMessage g],
        ctxLog := ctxLog } := by
  conv_lhs => rw [executeLoop.eq_def]
  simp [hg, hy, hn]

/-- A block of `i` marker-free responses is retried through: the loop reaches
the same configuration `i` attempts later (with some logger trace). -/
lemma executeLoop_skip (backend : Nat → LLMResult) :
    ∀ i remaining calls : Nat, ∀ trace : List String,
    ∀ ctxLog : List (String × String), i ≤ remaining →
    (∀ j, j < i → neitherMarkerAt backend (calls + j)) →
    ∃ trace', executeLoop backend remaining calls trace ctxLog
      = executeLoop backend (remaining - i) (calls + i) trace' ctxLog := by
  intro i
  induction i with
  | zero => exact fun remaining calls trace ctxLog _ _ => ⟨trace, rfl⟩
  | succ i ih =>
    intro remaining calls trace ctxLog hle hmal
    obtain ⟨g, hg, hy, hn⟩ := hmal 0 (Nat.succ_pos i)
    rw [Nat.add_zero] at hg
    obtain ⟨r', rfl⟩ : ∃ r', remaining = r' + 1 := ⟨remaining - 1, by omega⟩
    have step := executeLoop_retry_step backend r' calls trace ctxLog g hg hy hn
    obtain ⟨trace', htr⟩ := ih r' (calls + 1) (trace ++ [logMessage g]) ctxLog
      (by omega)
      (fun j hj => by
        have h := hmal (j + 1) (by omega)
        rwa [show calls + (j + 1) = calls + 1 + j by omega] at h)
    refine ⟨trace', ?_⟩
    rw [step, htr]
    congr 1 <;> omega

/-- When every attempt the bound allows is marker-free, the loop ends by
re-raising `InvalidOutputValueMismatch` on the final attempt, having made
exactly `remaining + 1` further calls and appended nothing to the context. -/
lemma executeLoop_exhaust (backend : Nat → LLMResult)
    (remaining calls : Nat) (trace : List String)
    (ctxLog : List (String × String))
    (hmal : ∀ j, j ≤ remaining → neitherMarkerAt backend (calls + j)) :
    (executeLoop backend remaining calls trace ctxLog).outcome
        = .validationError "Invalid response of LLM Call" ∧
    (executeLoop backend remaining calls trace ctxLog).calls
        = calls + remaining + 1 ∧
    (executeLoop backend remaining calls trace ctxLog).ctxLog = ctxLog := by
  obtain ⟨trace', htr⟩ := executeLoop_skip backend remaining remaining calls trace
    ctxLog (Nat.le_refl _) (fun j hj => hmal j (Nat.le_of_lt hj))
  obtain ⟨g, hg, hy, hn⟩ := hmal remaining (Nat.le_refl _)
  rw [htr, Nat.sub_self,
    executeLoop_last_step backend (calls + remaining) trace' ctxLog g hg hy hn]
  exact ⟨rfl, rfl, rfl⟩

/-- The loop never removes backend calls from the count. -/
lemma executeLoop_calls_le (backend : Nat → LLMResult) :
    ∀ remaining calls : Nat, ∀ trace : List String,
    ∀ ctxLog : List (String × String),
    calls ≤ (executeLoop backend remaining calls trace ctxLog).calls := by
  intro remaining
  induction remaining with
  | zero =>
    intro calls trace ctxLog
    rcases hg : backend calls with g | e
    · by_cases hy : strContains g "<Yes>" = true
      · rw [executeLoop_yes_step backend 0 calls trace ctxLog g hg hy]
        exact Nat.le_succ calls
      · have hy' : strContains g "<Yes>" = false := by simpa using hy
        by_cases hn : strContains g "<No>" = true
        · rw [executeLoop_no_step backend 0 calls trace ctxLog g hg hy' hn]
          exact Nat.le_succ calls
        · have hn' : strContains g "<No>" = false := by simpa using hn
          rw [executeLoop_last_step backend calls trace ctxLog g hg hy' hn']
          exact Nat.le_succ calls
    · rw [executeLoop_transport_step backend 0 calls trace ctxLog e hg]
      exact Nat.le_succ calls
  | succ r' ih =>
    intro calls trace ctxLog
    rcases hg : backend calls with g | e
    · by_cases hy : strContains g "<Yes>" = true
      · rw [executeLoop_yes_step backend (r' + 1) calls trace ctxLog g hg hy]
        exact Nat.le_succ calls
      · have hy' : strContains g "<Yes>" = false := by simpa using hy
        by_cases hn : strContains g "<No>" = true
        · rw [executeLoop_no_step backend (r' + 1) calls trace ctxLog g hg hy' hn]
          exact Nat.le_succ calls
        · have hn' : strContains g "<No>" = false := by simpa using hn
          rw [executeLoop_retry_step backend r' calls trace ctxLog g hg hy' hn']
          have h := ih (calls + 1) (trace ++ [logMessage g]) ctxLog
          omega
    · rw [executeLoop_transport_step backend (r' + 1) calls trace ctxLog e hg]
      exact Nat.le_succ calls

/-- A run that ends in a raised error (transport or validation) leaves the
context log exactly as it found it. -/
lemma executeLoop_failure_ctxLog (backend : Nat → LLMResult) :
    ∀ remaining calls : Nat, ∀ trace : List String,
    ∀ ctxLog : List (String × String),
    ((executeLoop backend remaining calls trace ctxLog).outcome).isFailure = true →
    (executeLoop backend remaining calls trace ctxLog).ctxLog = ctxLog := by
  intro remaining
  induction remaining with
  | zero =>
    intro calls trace ctxLog h
    rcases hg : backend calls with g | e
    · by_cases hy : strContains g "<Yes>" = true
      · rw [executeLoop_yes_step backend 0 calls trace ctxLog g hg hy] at h
        simp [ExecOutcome.isFailure] at h
      · have hy' : strContains g "<Yes>" = false := by simpa using hy
        by_cases hn : strContains g "<No>" = true
        · rw [executeLoop_no_step backend 0 calls trace ctxLog g hg hy' hn] at h
          simp [ExecOutcome.isFailure] at h
        · have hn' : strContains g "<No>" = false := by simpa using hn
          rw [executeLoop_last_step backend calls trace ctxLog g hg hy' hn']
    · rw [executeLoop_transport_step backend 0 calls trace ctxLog e hg]
  | succ r' ih =>
    intro calls trace ctxLog h
    rcases hg : backend calls with g | e
    · by_cases hy : strContains g "<Yes>" = true
      · rw [executeLoop_yes_step backend (r' + 1) calls trace ctxLog g hg hy] at h
        simp [ExecOutcome.isFailure] at h
      · have hy' : strContains g "<Yes>" = false := by simpa using hy
        by_cases hn : strContains g "<No>" = true
        · rw [executeLoop_no_step backend (r' + 1) calls trace ctxLog g hg hy' hn] at h
          simp [ExecOutcome.isFailure] at h
        · have hn' : strContains g "<No>" = false := by simpa using hn
          rw [executeLoop_retry_step backend r' calls trace ctxLog g hg hy' hn'] at h ⊢
          exact ih (calls + 1) (trace ++ [logMessage g]) ctxLog h
    · rw [executeLoop_transport_step backend (r' + 1) calls trace ctxLog e hg]

/-- Over a backend that always answers (response `r i` on call `i`), the
messages the logger received are exactly the formatted responses of the
attempts made, in attempt order — one per backend call, logged whether the
attempt validated or not. -/
lemma executeLoop_trace (r : Nat → String) :
    ∀ remaining calls : Nat, ∀ trace : List String,
    ∀ ctxLog : List (String × String),
    (executeLoop (fun i => .response (r i)) remaining calls trace ctxLog).loggerTrace
      = trace ++ (List.range' calls
          ((executeLoop (fun i => .response (r i)) remaining calls trace
              ctxLog).calls - calls)).map (fun i => logMessage (r i)) := by
  intro remaining
  induction remaining with
  | zero =>
    intro calls trace ctxLog
    by_cases hy : strContains (r calls) "<Yes>" = true
    · rw [executeLoop_yes_step _ 0 calls trace ctxLog (r calls) rfl hy]
      simp
    · have hy' : strContains (r calls) "<Yes>" = false := by simpa using hy
      by_cases hn : strContains (r calls) "<No>" = true
      · rw [executeLoop_no_step _ 0 calls trace ctxLog (r calls) rfl hy' hn]
        simp
      · have hn' : strContains (r calls) "<No>" = false := by simpa using hn
        rw [executeLoop_last_step _ calls trace ctxLog (r calls) rfl hy' hn']
        simp
  | succ k' ih =>
    intro calls trace ctxLog
    by_cases hy : strContains (r calls) "<Yes>" = true
    · rw [executeLoop_yes_step _ (k' + 1) calls trace ctxLog (r calls) rfl hy]
      simp
    · have hy' : strContains (r calls) "<Yes>" = false := by simpa using hy
      by_cases hn : strContains (r calls) "<No>" = true
      · rw [executeLoop_no_step _ (k' + 1) calls trace ctxLog (r calls) rfl hy' hn]
        simp
      · have hn' : strContains (r calls) "<No>" = false := by simpa using hn
        rw [executeLoop_retry_step _ k' calls trace ctxLog (r calls) rfl hy' hn']
        rw [ih (calls + 1) (trace ++ [logMessage (r calls)]) ctxLog]
        have hle := executeLoop_calls_le (fun i => .response (r i)) k' (calls + 1)
          (trace ++ [logMessage (r calls)]) ctxLog
        rw [show (executeLoop (fun i => .response (r i)) k' (calls + 1)
              (trace ++ [logMessage (r calls)]) ctxLog).calls - calls
            = ((executeLoop (fun i => .response (r i)) k' (calls + 1)
              (trace ++ [logMessage (r calls)]) ctxLog).calls - (calls + 1)) + 1
          by omega]
        rw [List.range'_succ]
        simp

/-- C1, counterexample: with `maxRetries = 1` and a backend that always
returns `"<Yes><No>"`, `execute` does NOT make two attempts and fail with
`OutputValidationError` as the claim states — it makes one call and succeeds
with verdict `true`, because the `if`/`elif` gives the affirmative marker
precedence. -/
theorem C1_counterexample :
    (execute (fun _ => .response "<Yes><No>") 1 []).calls = 1 ∧
    (execute (fun _ => .response "<Yes><No>") 1 []).outcome
      = .success (mkLogicUnitOutput true "<Yes><No>") ∧
    (execute (fun _ => .response "<Yes><No>") 1 []).outcome
      ≠ .validationError "Invalid response of LLM Call" := by
  refine ⟨rfl, rfl, ?_⟩
  decide

/-- C1, amended: a response containing both markers is resolved by marker
precedence — `"<Yes>" in response` is tested first, so any first response
containing the affirmative marker (with or without the negative one) makes
`execute` succeed on the first attempt with verdict `true`, after exactly one
backend call. -/
theorem C1_both_markers_precedence (backend : Nat → LLMResult) (k : Nat)
    (ctxLog : List (String × String)) (g : String)
    (hg : backend 0 = .response g) (hy : strContains g "<Yes>" = true) :
    execute backend k ctxLog =
      { outcome := .success (mkLogicUnitOutput true g), calls := 1,
        loggerTrace := [logMessage g],
        ctxLog := ctxLog ++ [("llm_call", g)] } := by
  unfold execute
  rw [executeLoop_yes_step backend k 0 [] ctxLog g hg hy]
  rfl

/-- C1, witness: the amended statement at `maxRetries = 1` and the constant
backend `"<Yes><No>"`. -/
theorem C1_witness :
    execute (fun _ => .response "<Yes><No>") 1 []
      = { outcome := .success (mkLogicUnitOutput true "<Yes><No>"), calls := 1,
          loggerTrace := [logMessage "<Yes><No>"],
          ctxLog := [("llm_call", "<Yes><No>")] } :=
  C1_both_markers_precedence (fun _ => .response "<Yes><No>") 1 [] "<Yes><No>"
    rfl (by decide)

/-- C2, counterexample: the claim calls a both-markers response malformed, but
with `maxRetries = 0` and a backend that always returns `"<Yes><No>"`,
`execute` raises nothing: it returns successfully after one call. -/
theorem C2_counterexample :
    (execute (fun _ => .response "<Yes><No>") 0 []).calls = 1 ∧
    ((execute (fun _ => .response "<Yes><No>") 0 []).outcome).isFailure
      = false := ⟨rfl, rfl⟩

/-- C2, amended: for every `maxRetries = k ≥ 0` and every backend whose
responses always contain neither marker, `execute` calls the backend exactly
`k + 1` times — never a `k + 2`-nd call — and then raises
`InvalidOutputValueMismatch` to the caller instead of returning any default
verdict. -/
theorem C2_exhausts_and_raises (backend : Nat → LLMResult) (k : Nat)
    (ctxLog : List (String × String))
    (hmal : ∀ i, i ≤ k → neitherMarkerAt backend i) :
    (execute backend k ctxLog).calls = k + 1 ∧
    (execute backend k ctxLog).outcome
      = .validationError "Invalid response of LLM Call" := by
  have h := executeLoop_exhaust backend k 0 [] ctxLog
    (fun j hj => by simpa using hmal j hj)
  refine ⟨?_, h.1⟩
  show (executeLoop backend k 0 [] ctxLog).calls = k + 1
  rw [h.2.1]
  omega

/-- C2, witness: the amended statement at `maxRetries = 1` and the constant
marker-free backend `"garbage"`: two calls, then the validation error. -/
theorem C2_witness :
    (execute (fun _ => .response "garbage") 1 []).calls = 2 ∧
    (execute (fun _ => .response "garbage") 1 []).outcome
      = .validationError "Invalid response of LLM Call" :=
  C2_exhausts_and_raises (fun _ => .response "garbage") 1 []
    (fun _ _ => ⟨"garbage", rfl, by decide, by decide⟩)

/-- C3: if the backend raises a transport failure on attempt `i ≤ maxRetries`
(after `i` marker-free attempts), `execute` propagates it at once: the outcome
is the transport error and exactly `i + 1` backend calls were made — no
further call, no retry of transport failures. -/
theorem C3_transport_propagates_immediately (backend : Nat → LLMResult)
    (k : Nat) (ctxLog : List (String × String)) (i : Nat) (e : String)
    (hik : i ≤ k)
    (hmal : ∀ j, j < i → neitherMarkerAt backend j)
    (ht : backend i = .transportFailure e) :
    (execute backend k ctxLog).outcome = .transport e ∧
    (execute backend k ctxLog).calls = i + 1 := by
  obtain ⟨trace', htr⟩ := executeLoop_skip backend i k 0 [] ctxLog hik
    (fun j hj => by simpa using hmal j hj)
  unfold execute
  rw [htr, executeLoop_transport_step backend (k - i) (0 + i) trace' ctxLog e
    (by simpa using ht)]
  refine ⟨rfl, ?_⟩
  show 0 + i + 1 = i + 1
  omega

/-- C3, witness: with `maxRetries = 2`, a marker-free first response and a
transport failure on the second attempt (`i = 1 < maxRetries`), the failure
propagates after exactly two calls. -/
theorem C3_witness :
    (execute (fun n => if n = 0 then LLMResult.response "garbage"
        else .transportFailure "boom") 2 []).outcome = .transport "boom" ∧
    (execute (fun n => if n = 0 then LLMResult.response "garbage"
        else .transportFailure "boom") 2 []).calls = 2 :=
  C3_transport_propagates_immediately
    (fun n => if n = 0 then LLMResult.response "garbage"
      else .transportFailure "boom") 2 [] 1 "boom" (by omega)
    (fun j hj => by
      have hj0 : j = 0 := by omega
      subst hj0
      exact ⟨"garbage", rfl, by decide, by decide⟩)
    rfl

/-- C4: on any attempt, a response containing the affirmative marker and not
the negative one makes `execute` succeed on that attempt with boolean verdict
`true`; symmetrically, a response containing the negative marker and not the
affirmative one succeeds with verdict `false` — still a successful unit
execution (`success = true` in the output). -/
theorem C4_single_marker_verdict (backend : Nat → LLMResult)
    (remaining calls : Nat) (trace : List String)
    (ctxLog : List (String × String)) (g : String)
    (hg : backend calls = .response g) :
    (strContains g "<Yes>" = true → strContains g "<No>" = false →
      executeLoop backend remaining calls trace ctxLog =
        { outcome := .success (mkLogicUnitOutput true g), calls := calls + 1,
          loggerTrace := trace ++ [logMessage g],
          ctxLog := ctxLog ++ [("llm_call", g)] }) ∧
    (strContains g "<No>" = true → strContains g "<Yes>" = false →
      executeLoop backend remaining calls trace ctxLog =
        { outcome := .success (mkLogicUnitOutput false g), calls := calls + 1,
          loggerTrace := trace ++ [logMessage g],
          ctxLog := ctxLog ++ [("llm_call", g)] }) :=
  ⟨fun hy _ => executeLoop_yes_step backend remaining calls trace ctxLog g hg hy,
   fun hn hy => executeLoop_no_step backend remaining calls trace ctxLog g hg hy hn⟩

/-- C4, witness: both directions at concrete single-marker responses. -/
theorem C4_witness :
    executeLoop (fun _ => .response "<Yes> looks correct") 0 0 [] [] =
      { outcome := .success (mkLogicUnitOutput true "<Yes> looks correct"),
        calls := 1, loggerTrace := [logMessage "<Yes> looks correct"],
        ctxLog := [("llm_call", "<Yes> looks correct")] } ∧
    executeLoop (fun _ => .response "<No> incorrect") 0 0 [] [] =
      { outcome := .success (mkLogicUnitOutput false "<No> incorrect"),
        calls := 1, loggerTrace := [logMessage "<No> incorrect"],
        ctxLog := [("llm_call", "<No> incorrect")] } :=
  ⟨(C4_single_marker_verdict (fun _ => .response "<Yes> looks correct")
      0 0 [] [] "<Yes> looks correct" rfl).1 (by decide) (by decide),
   (C4_single_marker_verdict (fun _ => .response "<No> incorrect")
      0 0 [] [] "<No> incorrect" rfl).2 (by decide) (by decide)⟩

/-- C5: after a successful `execute` — `i ≤ maxRetries` marker-free attempts,
then a response carrying a marker — the context log has exactly one new entry,
`("llm_call", rawResponseText)`, appended after whatever was there before
(malformed attempts appended nothing), and the returned `LogicUnitOutput` has
`success = true`, message `"Code Generated Successfully"` and payload
`{content_type: "string", value: rawResponseText}`. -/
theorem C5_success_appends_one_entry (backend : Nat → LLMResult) (k : Nat)
    (ctxLog : List (String × String)) (i : Nat) (g : String)
    (hik : i ≤ k)
    (hmal : ∀ j, j < i → neitherMarkerAt backend j)
    (hg : backend i = .response g)
    (hv : strContains g "<Yes>" = true ∨ strContains g "<No>" = true) :
    (execute backend k ctxLog).ctxLog = ctxLog ++ [("llm_call", g)] ∧
    (execute backend k ctxLog).outcome =
      .success { output := strContains g "<Yes>", success := true,
                 message := "Code Generated Successfully",
                 content_type := "string", value := g } := by
  obtain ⟨trace', htr⟩ := executeLoop_skip backend i k 0 [] ctxLog hik
    (fun j hj => by simpa using hmal j hj)
  unfold execute
  rw [htr]
  by_cases hy : strContains g "<Yes>" = true
  · rw [executeLoop_yes_step backend (k - i) (0 + i) trace' ctxLog g
      (by simpa using hg) hy, hy]
    exact ⟨rfl, rfl⟩
  · have hy' : strContains g "<Yes>" = false := by simpa using hy
    have hn : strContains g "<No>" = true := by
      cases hv with
      | inl h => exact absurd h hy
      | inr h => exact h
    rw [executeLoop_no_step backend (k - i) (0 + i) trace' ctxLog g
      (by simpa using hg) hy' hn, hy']
    exact ⟨rfl, rfl⟩

/-- C5, witness: the concrete scenario of the spec — `maxRetries = 2`, backend
sequence `"garbage"`, `"garbage"`, `"<Yes> looks correct"`: success on the
third attempt, one context entry holding the final raw response. -/
theorem C5_witness :
    (execute (fun n => if n ≤ 1 then LLMResult.response "garbage"
        else .response "<Yes> looks correct") 2 []).ctxLog
      = [("llm_call", "<Yes> looks correct")] ∧
    (execute (fun n => if n ≤ 1 then LLMResult.response "garbage"
        else .response "<Yes> looks correct") 2 []).outcome
      = .success { output := true, success := true,
                   message := "Code Generated Successfully",
                   content_type := "string", value := "<Yes> looks correct" } :=
  C5_success_appends_one_entry
    (fun n => if n ≤ 1 then LLMResult.response "garbage"
      else .response "<Yes> looks correct") 2 [] 2 "<Yes> looks correct"
    (by omega)
    (fun j hj => by
      have : j = 0 ∨ j = 1 := by omega
      rcases this with h | h <;> subst h <;>
        exact ⟨"garbage", rfl, by decide, by decide⟩)
    rfl (Or.inl (by decide))

/-- C6, counterexample: after exhausting retries (`maxRetries = 1`, responses
always `"totally garbled"`), the error surfaced to the caller carries only the
fixed message `"Invalid response of LLM Call"`, which contains neither the
last malformed response text nor the retry count — contrary to the claim. -/
theorem C6_counterexample :
    (execute (fun _ => .response "totally garbled") 1 []).outcome
      = .validationError "Invalid response of LLM Call" ∧
    strContains "Invalid response of LLM Call" "totally garbled" = false ∧
    strContains "Invalid response of LLM Call" "1" = false :=
  ⟨rfl, by decide, by decide⟩

/-- C6, amended: when `execute` fails after exhausting all retries, the error
surfaced to the caller is `InvalidOutputValueMismatch` with the constant
message `"Invalid response of LLM Call"` — the same for every backend and
retry bound, exposing neither the last malformed response nor the retry
count. -/
theorem C6_fixed_error_message (backend : Nat → LLMResult) (k : Nat)
    (ctxLog : List (String × String))
    (hmal : ∀ i, i ≤ k → neitherMarkerAt backend i) :
    (execute backend k ctxLog).outcome
      = .validationError "Invalid response of LLM Call" :=
  (executeLoop_exhaust backend k 0 [] ctxLog
    (fun j hj => by simpa using hmal j hj)).1

/-- C6, witness: the amended statement at `maxRetries = 0` with the constant
marker-free backend `"junk output"`. -/
theorem C6_witness :
    (execute (fun _ => .response "junk output") 0 []).outcome
      = .validationError "Invalid response of LLM Call" :=
  C6_fixed_error_message (fun _ => .response "junk output") 0 []
    (fun _ _ => ⟨"junk output", rfl, by decide, by decide⟩)

/-- C7: constructing an `AzureOpenAI` deployment with a missing API key,
missing endpoint base, missing API version, or missing deployment name fails
with the configuration error of the corresponding kind (the first three as
`APIKeyNotFoundError` with the matching message, the last as
`MissingModelError`), raised by the constructor itself — which performs no
completion call — while construction with all four present raises none of
these errors and returns the assembled deployment. -/
theorem C7_construction_checks (tok base ver dep : String) :
    azureOpenAI_init none (some base) (some ver) (some dep) true
      = .error (.apiKeyNotFound
          ("Azure OpenAI key is required. Please add an environment variable " ++
           "`OPENAI_API_KEY` or pass `api_token` as a named parameter")) ∧
    azureOpenAI_init (some tok) none (some ver) (some dep) true
      = .error (.apiKeyNotFound
          ("Azure OpenAI base is required. Please add an environment variable " ++
           "`OPENAI_API_BASE` or pass `api_base` as a named parameter")) ∧
    azureOpenAI_init (some tok) (some base) none (some dep) true
      = .error (.apiKeyNotFound
          ("Azure OpenAI version is required. Please add an environment variable " ++
           "`OPENAI_API_VERSION` or pass `api_version` as a named parameter")) ∧
    azureOpenAI_init (some tok) (some base) (some ver) none true
      = .error (.missingModel "No deployment name provided."
          "Please include deployment name from Azure dashboard.") ∧
    azureOpenAI_init (some tok) (some base) (some ver) (some dep) true
      = .ok { model_list :=
                [{ model_name := "gpt-3.5-turbo",
                   model := "azure/" ++ dep, api_key := some tok,
                   api_version := some ver, api_base := some base,
                   tpm := 240000, rpm := 1800 }],
              is_chat_model := true, engine := dep } :=
  ⟨rfl, rfl, rfl, rfl, rfl⟩

/-- C8: over any backend that answers every call, the messages the logger
collaborator received after a run are exactly the formatted raw response of
each attempt, one per backend call, in the exact order attempts were made —
so every malformed attempt is logged before any retry, and a successful
attempt is logged exactly once, whatever the outcome of validation. -/
theorem C8_logger_receives_each_attempt (r : Nat → String) (k : Nat)
    (ctxLog : List (String × String)) :
    (execute (fun i => .response (r i)) k ctxLog).loggerTrace
      = (List.range (execute (fun i => .response (r i)) k ctxLog).calls).map
          (fun i => logMessage (r i)) := by
  have h := executeLoop_trace r k 0 [] ctxLog
  unfold execute
  rw [h, List.range_eq_range']
  simp

/-- C9: whenever `execute` raises an error to its caller — transport failure
on any attempt, or validation exhaustion after the final attempt — it has
appended no `("llm_call", ...)` entry: the context log is exactly what the
caller passed in, so the mutation happens only on the successful return
path. -/
theorem C9_failure_leaves_context_untouched (backend : Nat → LLMResult)
    (k : Nat) (ctxLog : List (String × String))
    (h : ((execute backend k ctxLog).outcome).isFailure = true) :
    (execute backend k ctxLog).ctxLog = ctxLog :=
  executeLoop_failure_ctxLog backend k 0 [] ctxLog h

/-- C9, witness: a transport failure on the first attempt leaves the
pre-existing context entry as the whole context log. -/
theorem C9_witness :
    ((execute (fun _ => LLMResult.transportFailure "boom") 0
        [("seed", "v")]).outcome).isFailure = true ∧
    (execute (fun _ => LLMResult.transportFailure "boom") 0
        [("seed", "v")]).ctxLog = [("seed", "v")] :=
  ⟨rfl, C9_failure_leaves_context_untouched
    (fun _ => LLMResult.transportFailure "boom") 0 [("seed", "v")] rfl⟩

/-- C10: invoking `on_code` on `BaseCallBack` — which does not implement the
capability — raises `MethodNotImplementedError("Must have implemented this.")`
for every input string, while `StdoutCallBack.on_code` provides the
capability: for every input it writes the response and raises no error. -/
theorem C10_callback_capability (s : String) :
    on_code .base s
      = .error (.methodNotImplemented "Must have implemented this.") ∧
    on_code .stdout s = .ok [s] :=
  ⟨rfl, rfl⟩

end PandaIA
